import Mathlib

/-!
Shallow embedding of the Manuverse_Demo manufacturing-analytics pipeline
(`src/data_loader.py`, `src/query_filter.py`, `src/data_processor.py`,
`src/api.py`) together with theorems settling the frozen claims about it.

Conventions used throughout the embedding:
* pandas/numpy floating-point cells are modelled by `PValue`: a finite float
  is an exact rational, and `nan`, `inf`, `ninf` model the IEEE special
  values that numpy arithmetic produces (e.g. `x / 0 = inf` for `x > 0`,
  `0 / 0 = nan`).  `null` models Python `None` / pandas `NaT`; in float
  columns pandas stores missing data as NaN, and `pd.isna` treats both alike.
* dates/timestamps are modelled as integer day numbers (proleptic Gregorian,
  day 0 = 1970-01-01); `timedelta(days = k)` is subtraction of `k`.
* Python strings are handled as `List Char`; the queries and column names in
  the repository are ASCII, so `str.lower` is ASCII lowercasing.
-/

namespace Manuverse

/-- A pandas cell value: finite float, IEEE specials, string, missing, or a
datetime (day number). -/
inductive PValue where
  | num (q : ℚ)
  | nan
  | inf
  | ninf
  | str (s : String)
  | null
  | date (d : ℤ)
deriving DecidableEq

/-- Column dtype, as far as the source consults it (`is_numeric_dtype`,
`dtype == 'object'`, datetime64 checks).  Boolean/extension dtypes never
occur in the datasets this repository manipulates and are folded into
`otherType`. -/
inductive Dtype where
  | float
  | obj
  | datetime
  | otherType
deriving DecidableEq

/-- One named, typed column of a DataFrame. -/
structure Column where
  name : String
  dtype : Dtype
  cells : List PValue
deriving DecidableEq

/-- A pandas DataFrame, column-major.  Well-formed frames have pairwise
distinct column names and equal column lengths; theorems assume these
explicitly where they matter. -/
structure DataFrame where
  cols : List Column
deriving DecidableEq

/-- Models `pd.isna` on a scalar cell: NaN and None/NaT are missing. -/
def isNaCell : PValue → Bool
  | .nan => true
  | .null => true
  | _ => false

/-! ## ASCII string helpers (Python `str.lower`, `in`, `re` word matching) -/

/-- ASCII lowercasing of one character, as Python `str.lower` does on the
ASCII strings appearing in this repository. -/
def lowerChar (c : Char) : Char :=
  if 'A' ≤ c ∧ c ≤ 'Z' then Char.ofNat (c.toNat + 32) else c

/-- Python `s.lower()` on an ASCII string. -/
def lowerList (l : List Char) : List Char := l.map lowerChar

/-- Tests whether the first list is an initial segment of the second. -/
def headMatches : List Char → List Char → Bool
  | [], _ => true
  | _ :: _, [] => false
  | a :: as, b :: bs => a = b && headMatches as bs

/-- Python's substring containment `needle in haystack`. -/
def containsSub : List Char → List Char → Bool
  | n, [] => n.isEmpty
  | n, c :: t => headMatches n (c :: t) || containsSub n t

/-- Python `keyword in text` for `String`s. -/
def strContains (text keyword : String) : Bool :=
  containsSub keyword.data text.data

/-- A regex word character `\w` (ASCII, as all queries here are ASCII). -/
def isWordChar (c : Char) : Bool := c.isAlphanum || c = '_'

/-- The keyword `w` occurs in `s` starting at index `i`. -/
def occursAt (w s : List Char) (i : ℕ) : Bool := headMatches w (s.drop i)

/-- A `\b` word boundary holds just before index `i` of `s`, for a pattern
whose first character is a word character. -/
def boundaryBefore (s : List Char) (i : ℕ) : Bool :=
  i = 0 || !isWordChar (s.getD (i - 1) ' ')

/-- A `\b` word boundary holds just after index `j` (exclusive end), for a
pattern whose last character is a word character. -/
def boundaryAfter (s : List Char) (j : ℕ) : Bool :=
  s.length ≤ j || !isWordChar (s.getD j ' ')

/-- Models `re.search` of `\b<w>\b` in `s` for a literal keyword `w` that
starts and ends with word characters (every keyword in the filter does). -/
def wholeWordMatch (w s : List Char) : Bool :=
  (List.range (s.length + 1)).any fun i =>
    occursAt w s i && boundaryBefore s i && boundaryAfter s (i + w.length)

/-! ## Calendar arithmetic (model of pandas timestamps, unit = days) -/

/-- Day number of a proleptic-Gregorian civil date, day 0 = 1970-01-01
(the standard days-from-civil algorithm; `Int` division truncates toward
zero exactly as the reference algorithm requires). -/
def daysFromCivil (y m d : ℤ) : ℤ :=
  let y' := if m ≤ 2 then y - 1 else y
  let era := (if 0 ≤ y' then y' else y' - 399) / 400
  let yoe := y' - era * 400
  let mp := (m + 9) % 12
  let doy := (153 * mp + 2) / 5 + d - 1
  let doe := yoe * 365 + yoe / 4 - yoe / 100 + doy
  era * 146097 + doe - 719468

/-- Civil date `(year, month, day)` of a day number (inverse of
`daysFromCivil`). -/
def civilFromDays (z0 : ℤ) : ℤ × ℤ × ℤ :=
  let z := z0 + 719468
  let era := (if 0 ≤ z then z else z - 146096) / 146097
  let doe := z - era * 146097
  let yoe := (doe - doe / 1460 + doe / 36524 - doe / 146096) / 365
  let y := yoe + era * 400
  let doy := doe - (365 * yoe + yoe / 4 - yoe / 100)
  let mp := (5 * doy + 2) / 153
  let d := doy - (153 * mp + 2) / 5 + 1
  let m := mp + (if mp < 10 then 3 else -9)
  (if m ≤ 2 then y + 1 else y, m, d)

/-- ISO-8601 week number of a day number, as
`Series.dt.isocalendar().week`: the week containing the day's Thursday,
numbered within that Thursday's year.  1970-01-01 is a Thursday, and
`Int.emod` is non-negative here. -/
def isoWeek (z : ℤ) : ℤ :=
  let wd := (z + 3) % 7
  let thursday := z - wd + 3
  let y := (civilFromDays thursday).1
  (thursday - daysFromCivil y 1 1) / 7 + 1

/-- Month period of a day number, as `Series.dt.to_period("M")`, encoded
as `year * 12 + month`. -/
def monthPeriod (z : ℤ) : ℤ :=
  let c := civilFromDays z
  c.1 * 12 + c.2.1

/-- Parses an ISO `YYYY-MM-DD` date string to a day number.  pandas'
`to_datetime` accepts many more textual formats; the datasets and
instructions of this repository use ISO dates, and only parse
success/failure and date ordering are consulted by the claims. -/
def parseISODate (s : String) : Option ℤ :=
  match s.data with
  | [y1, y2, y3, y4, '-', m1, m2, '-', d1, d2] =>
    if y1.isDigit ∧ y2.isDigit ∧ y3.isDigit ∧ y4.isDigit ∧ m1.isDigit ∧
        m2.isDigit ∧ d1.isDigit ∧ d2.isDigit then
      let y : ℤ := ((y1.toNat - 48) * 1000 + (y2.toNat - 48) * 100 +
        (y3.toNat - 48) * 10 + (y4.toNat - 48) : ℕ)
      let m : ℤ := ((m1.toNat - 48) * 10 + (m2.toNat - 48) : ℕ)
      let d : ℤ := ((d1.toNat - 48) * 10 + (d2.toNat - 48) : ℕ)
      if 1 ≤ m ∧ m ≤ 12 ∧ 1 ≤ d ∧ d ≤ 31 then some (daysFromCivil y m d)
      else none
    else none
  | _ => none

/-- Models scalar `pd.to_datetime(x)` (`errors` defaulting to raise):
`none` means the call raises.  pandas special-cases the strings `"now"` and
`"today"`, returning the current wall-clock time — the `now` parameter
threads that wall clock through the model.  `None`/NaN convert to `NaT`
without raising.  A number is interpreted as nanoseconds since the epoch. -/
def toDatetimeScalar (now : ℤ) : PValue → Option PValue
  | .null => some .null
  | .nan => some .null
  | .date d => some (.date d)
  | .str s =>
    if s = "now" ∨ s = "today" then some (.date now)
    else (parseISODate s).map .date
  | .num q => some (.date (Int.fdiv ⌊q⌋ 86400000000000))
  | .inf => none
  | .ninf => none

/-! ## Query filter (`src/query_filter.py`) -/

/-- The `QueryFilterResult` enum of `query_filter.py`. -/
inductive QueryFilterResult where
  | allowed
  | blockedIrrelevant
  | blockedUnsafe
  | blockedPersonal
deriving DecidableEq

/-- The alternatives of `ManufacturingQueryFilter.unsafe_patterns`, flattened:
each regex is `\b(w1|w2|...)\b`, so a search is a whole-word match of some
alternative. -/
def unsafePatternWords : List String :=
  ["sex", "sexual", "porn", "nude", "naked", "explicit",
   "adult", "xxx", "erotic", "intimate",
   "kill", "murder", "violence", "weapon", "bomb", "terrorist",
   "suicide", "self-harm", "hurt", "pain", "torture",
   "drugs", "illegal", "criminal", "hack", "steal", "fraud",
   "piracy", "copyright", "crack", "bypass",
   "password", "credit card", "ssn", "social security", "bank account",
   "phone number", "address", "email", "personal"]

/-- The alternatives of `ManufacturingQueryFilter.irrelevant_patterns`,
flattened the same way. -/
def irrelevantPatternWords : List String :=
  ["movie", "film", "music", "song", "celebrity", "actor", "actress",
   "game", "gaming", "video game", "sport", "football", "basketball",
   "facebook", "twitter", "instagram", "tiktok", "social media",
   "dating", "relationship", "friendship", "personal life",
   "recipe", "cooking", "food", "restaurant", "cuisine",
   "travel", "vacation", "tourism", "country", "city", "geography",
   "weather", "temperature", "rain", "snow", "climate",
   "politics", "political", "religion", "religious", "god", "church",
   "doctor", "medicine", "hospital", "disease", "symptom",
   "stock", "investment", "crypto", "bitcoin", "trading"]

/-- `ManufacturingQueryFilter.manufacturing_keywords` (a Python set; matched
by plain substring containment against the lowercased query). -/
def manufacturingKeywords : List String :=
  ["production", "manufacturing", "factory", "plant", "assembly", "fabrication",
   "machining", "processing", "automation", "robotics", "cnc", "machinery",
   "quality", "defects", "defect", "efficiency", "productivity", "performance",
   "yield", "waste", "scrap", "rework", "inspection", "testing", "compliance",
   "standards", "iso", "lean", "six sigma", "kaizen", "continuous improvement",
   "operations", "workflow", "process", "procedure", "schedule", "planning",
   "inventory", "supply chain", "logistics", "warehouse", "distribution",
   "shipping", "receiving", "procurement", "sourcing", "vendor", "supplier",
   "equipment", "machine", "tool", "maintenance", "repair", "downtime",
   "uptime", "breakdown", "preventive", "predictive", "calibration",
   "oee", "overall equipment effectiveness",
   "operator", "technician", "supervisor", "foreman", "shift", "worker",
   "employee", "team", "crew", "training", "skill", "safety",
   "kpi", "metric", "target", "goal", "benchmark", "baseline", "trend",
   "analysis", "report", "dashboard", "monitoring", "tracking",
   "material", "component", "part", "raw material", "finished goods",
   "batch", "lot", "serial number", "bom", "bill of materials",
   "data", "chart", "graph", "visualization", "statistics", "correlation",
   "pattern", "insight", "summary", "overview", "comparison", "ranking",
   "top performers", "bottom performers", "outliers", "anomalies"]

/-- `ManufacturingQueryFilter.data_analysis_keywords` (substring-matched). -/
def dataAnalysisKeywords : List String :=
  ["show", "display", "plot", "chart", "graph", "visualize", "analyze",
   "compare", "trend", "pattern", "correlation", "summary", "overview",
   "top", "bottom", "best", "worst", "highest", "lowest", "average",
   "total", "count", "percentage", "rate", "ratio", "distribution",
   "frequency", "range", "variance", "standard deviation", "median",
   "quartile", "percentile", "outlier", "anomaly", "insight",
   "performers", "performance", "ranking", "comparison"]

/-- Models `self.unsafe_regex.search(query)`: the compiled alternation of
`unsafe_patterns` with `re.IGNORECASE` (matching the raw query
case-insensitively is matching the lowercased query against the lowercase
keywords). -/
def unsafeHit (q : String) : Bool :=
  unsafePatternWords.any fun w => wholeWordMatch w.data (lowerList q.data)

/-- Models `self.irrelevant_regex.search(query)` the same way. -/
def irrelevantHit (q : String) : Bool :=
  irrelevantPatternWords.any fun w => wholeWordMatch w.data (lowerList q.data)

/-- `manufacturing_score`: number of manufacturing keywords contained in the
lowercased query. -/
def manufacturingScore (q : String) : ℕ :=
  manufacturingKeywords.countP fun k => containsSub k.data (lowerList q.data)

/-- `analysis_score`: number of data-analysis keywords contained in the
lowercased query. -/
def analysisScore (q : String) : ℕ :=
  dataAnalysisKeywords.countP fun k => containsSub k.data (lowerList q.data)

/-- The alternatives of the first generic data pattern
`\b(what|show|how|which|when|where)\b.*\b(data|trend|chart|graph)\b`. -/
def genericLeadWords : List String := ["what", "show", "how", "which", "when", "where"]

/-- Second alternative group of the first generic data pattern. -/
def genericTailWords : List String := ["data", "trend", "chart", "graph"]

/-- The region `s[a..b)` contains no newline (regex `.` does not match a
newline without `re.DOTALL`). -/
def noNewlineBetween (s : List Char) (a b : ℕ) : Bool :=
  ((s.drop a).take (b - a)).all fun c => c ≠ '\n'

/-- Models `re.search` of the two-group generic pattern: a whole-word
occurrence of a lead word, then `.*`, then a whole-word occurrence of a tail
word. -/
def genericSeqMatch (s : List Char) : Bool :=
  (List.range (s.length + 1)).any fun i =>
    genericLeadWords.any fun w1 =>
      occursAt w1.data s i && boundaryBefore s i &&
        boundaryAfter s (i + w1.data.length) &&
        ((List.range (s.length + 1)).any fun j =>
          genericTailWords.any fun w2 =>
            decide (i + w1.data.length ≤ j) && occursAt w2.data s j &&
              boundaryBefore s j && boundaryAfter s (j + w2.data.length) &&
              noNewlineBetween s (i + w1.data.length) j)

/-- The remaining three `generic_data_patterns`, each a plain whole-word
alternation. -/
def genericSimpleGroups : List (List String) :=
  [["analyze", "analysis", "compare", "comparison"],
   ["top", "best", "worst", "highest", "lowest"],
   ["summary", "overview", "report"]]

/-- Models the `for pattern in generic_data_patterns` loop applied to the
lowercased query. -/
def genericPatternHit (ql : List Char) : Bool :=
  genericSeqMatch ql ||
    genericSimpleGroups.any fun g => g.any fun w => wholeWordMatch w.data ql

/-- `ManufacturingQueryFilter._check_manufacturing_relevance`. -/
def checkManufacturingRelevance (q : String) : QueryFilterResult :=
  if irrelevantHit q then .blockedIrrelevant
  else if 1 ≤ analysisScore q then .allowed
  else if 1 ≤ manufacturingScore q then .allowed
  else if genericPatternHit (lowerList q.data) then .allowed
  else .blockedIrrelevant

/-- `ManufacturingQueryFilter.filter_query`: unsafe check first, then the
relevance check; a non-ALLOWED result from either is returned immediately. -/
def filterQuery (q : String) : QueryFilterResult :=
  if unsafeHit q then .blockedUnsafe
  else checkManufacturingRelevance q

/-- C2: the safety filter evaluates the unsafe check first, then the
irrelevant-topic check, then keyword relevance scoring, first match winning:
an unsafe hit yields BLOCKED_UNSAFE; with no unsafe hit, an irrelevant-topic
hit yields BLOCKED_IRRELEVANT regardless of any manufacturing or analysis
keywords in the query; with neither, one analysis-keyword hit suffices for
ALLOWED; and the query "What's the weather, and also show defect trends?"
is BLOCKED_IRRELEVANT. -/
theorem c2_filter_precedence :
    (∀ q : String, unsafeHit q = true → filterQuery q = .blockedUnsafe) ∧
    (∀ q : String, unsafeHit q = false → irrelevantHit q = true →
      filterQuery q = .blockedIrrelevant) ∧
    (∀ q : String, unsafeHit q = false → irrelevantHit q = false →
      1 ≤ analysisScore q → filterQuery q = .allowed) ∧
    filterQuery "What\x27s the weather, and also show defect trends?" =
      .blockedIrrelevant := by
  refine ⟨fun q hu => ?_, fun q hu hi => ?_, fun q hu hi ha => ?_, by decide⟩
  · simp [filterQuery, hu]
  · simp [filterQuery, checkManufacturingRelevance, hu, hi]
  · simp [filterQuery, checkManufacturingRelevance, hu, hi, ha]

/-- Witness instantiating the universally quantified parts of the C2 theorem
at concrete queries. -/
theorem c2_filter_precedence_witness :
    filterQuery "How to hack a password?" = .blockedUnsafe ∧
    filterQuery "analyze the weather and defect trends" = .blockedIrrelevant ∧
    filterQuery "Show me production trends" = .allowed :=
  ⟨c2_filter_precedence.1 _ (by decide),
   c2_filter_precedence.2.1 _ (by decide) (by decide),
   c2_filter_precedence.2.2.1 _ (by decide) (by decide) (by decide)⟩

/-! ## Rule-based column classification (`src/data_loader.py`) -/

/-- Some keyword of `ks` is contained (as a substring, Python `in`) in the
lowercased name `l`. -/
def anyKeyword (ks : List String) (l : List Char) : Bool :=
  ks.any fun k => containsSub k.data l

/-- Date keywords of the first check in `detect_columns_by_rules`. -/
def dateNameKeywords : List String :=
  ["date", "time", "timestamp", "day", "month", "year"]

/-- Generic quantity keywords — the first list checked for numeric columns. -/
def genericQuantityKeywords : List String :=
  ["production", "output", "volume", "quantity", "count", "amount",
   "sales", "revenue", "units", "total", "sum", "value", "score",
   "measurement", "result", "data", "number", "level", "concentration"]

/-- Quality keywords — checked second for numeric columns. -/
def qualityKeywords : List String :=
  ["defect", "error", "fault", "failure", "reject", "waste", "scrap",
   "negative", "problem", "issue"]

/-- Efficiency keywords — checked third for numeric columns. -/
def efficiencyKeywords : List String :=
  ["efficiency", "rate", "percent", "%", "ratio", "performance",
   "percentage", "proportion", "share"]

/-- Time-measure keywords — checked last for numeric columns. -/
def timeMeasureKeywords : List String :=
  ["time", "duration", "downtime", "uptime", "minutes", "hours",
   "period", "interval", "cycle"]

/-- Number of distinct non-null values of a column (`Series.nunique`). -/
def nunique (cells : List PValue) : ℕ :=
  ((cells.filter fun v => !isNaCell v).dedup).length

/-- The eight semantic category literals. -/
def eightCategories : List String :=
  ["date", "numeric_measure", "quality_measure", "efficiency_measure",
   "time_measure", "categorical", "identifier", "other"]

/-- The per-column body of the `detect_columns_by_rules` loop.  The source's
control flow (`if` date keyword / `elif` object-dtype date sniff with
`continue`, then `if column_mapping.get(col): continue`, then the dtype
dispatch) assigns each column exactly one category; that flow flattens to
this `if`-chain: an object column whose date sniff fails falls through to
the cardinality split, and `pd.to_datetime(None)` returns `NaT` without
raising, so an object column with no non-null sample is classified "date".
Consequently the `len(df)` division in the cardinality ratio is only reached
with at least one row, so Python's `ZeroDivisionError` cannot occur there
(rational division by zero in the model is likewise never reached). -/
def classifyColumn (now : ℤ) (nrows : ℕ) (c : Column) : String :=
  let colLower := lowerList c.name.data
  let sampleValues := (c.cells.filter fun v => !isNaCell v).take 10
  if anyKeyword dateNameKeywords colLower then "date"
  else if c.dtype = .obj ∧
      (toDatetimeScalar now
        (match sampleValues with | [] => .null | v :: _ => v)).isSome then
    "date"
  else if c.dtype = .float then
    if anyKeyword genericQuantityKeywords colLower then "numeric_measure"
    else if anyKeyword qualityKeywords colLower then "quality_measure"
    else if anyKeyword efficiencyKeywords colLower then "efficiency_measure"
    else if anyKeyword timeMeasureKeywords colLower then "time_measure"
    else "numeric_measure"
  else if c.dtype = .obj then
    if (nunique c.cells : ℚ) / (nrows : ℚ) < 1 / 10 ∨ nunique c.cells < 20 then
      "categorical"
    else "identifier"
  else "other"

/-- Number of rows of a frame (`len(df)`). -/
def DataFrame.nrows (df : DataFrame) : ℕ :=
  match df.cols with
  | [] => 0
  | c :: _ => c.cells.length

/-- `detect_columns_by_rules`: the resulting `column_mapping` dict as an
association list in column order (for frames with distinct column names the
two agree). -/
def detectColumnsByRules (now : ℤ) (df : DataFrame) : List (String × String) :=
  df.cols.map fun c => (c.name, classifyColumn now df.nrows c)

/-- Every classification result is one of the eight category literals. -/
theorem classifyColumn_mem_eightCategories (now : ℤ) (nrows : ℕ) (c : Column) :
    classifyColumn now nrows c ∈ eightCategories := by
  simp only [classifyColumn]
  split_ifs <;> simp [eightCategories]

/-- C5: rule-based classification assigns every column exactly one category,
drawn from the eight literals — the mapping lists each column name exactly
once, in order, and every assigned category is one of the eight. -/
theorem c5_classification_partition (now : ℤ) (df : DataFrame)
    (h : (df.cols.map Column.name).Nodup) :
    (detectColumnsByRules now df).map Prod.fst = df.cols.map Column.name ∧
    ((detectColumnsByRules now df).map Prod.fst).Nodup ∧
    ∀ p ∈ detectColumnsByRules now df, p.2 ∈ eightCategories := by
  have hfst : (detectColumnsByRules now df).map Prod.fst =
      df.cols.map Column.name := by
    simp [detectColumnsByRules]
  refine ⟨hfst, hfst ▸ h, ?_⟩
  intro p hp
  simp only [detectColumnsByRules, List.mem_map] at hp
  obtain ⟨c, _, rfl⟩ := hp
  exact classifyColumn_mem_eightCategories now df.nrows c

/-- Witness instantiating C5 on a concrete three-column frame. -/
theorem c5_classification_partition_witness :
    (detectColumnsByRules 0
        ⟨[⟨"date", .datetime, [.date 19000]⟩,
          ⟨"production", .float, [.num 100]⟩,
          ⟨"region", .obj, [.str "North"]⟩]⟩).map Prod.fst =
      ["date", "production", "region"] ∧
    ∀ p ∈ detectColumnsByRules 0
        ⟨[⟨"date", .datetime, [.date 19000]⟩,
          ⟨"production", .float, [.num 100]⟩,
          ⟨"region", .obj, [.str "North"]⟩]⟩, p.2 ∈ eightCategories := by
  have h := c5_classification_partition 0
    ⟨[⟨"date", .datetime, [.date 19000]⟩,
      ⟨"production", .float, [.num 100]⟩,
      ⟨"region", .obj, [.str "North"]⟩]⟩ (by decide)
  exact ⟨h.1, h.2.2⟩

/-- C1 counterexample: a numeric column named "defect_count" contains the
generic-quantity keyword "count", which the code checks before the quality
keywords, so it classifies as numeric_measure — not quality_measure as the
claim states. -/
theorem c1_counterexample :
    detectColumnsByRules 0 ⟨[⟨"defect_count", .float, [.num 3, .num 1]⟩]⟩ =
      [("defect_count", "numeric_measure")] ∧
    ("numeric_measure" : String) ≠ "quality_measure" := by
  refine ⟨by decide, by decide⟩

/-- C1 amended: for a numeric column whose name contains no date keyword the
scan order is generic quantity → quality → efficiency → time-duration, with
default numeric_measure; hence "defect_count" → numeric_measure,
"revenue_usd" → numeric_measure, "efficiency_pct" → efficiency_measure,
while "downtime_minutes" contains the date keyword "time" and so classifies
as date. -/
theorem c1_amended :
    (∀ (now : ℤ) (nrows : ℕ) (c : Column), c.dtype = .float →
      anyKeyword dateNameKeywords (lowerList c.name.data) = false →
      classifyColumn now nrows c =
        (if anyKeyword genericQuantityKeywords (lowerList c.name.data) then
          "numeric_measure"
        else if anyKeyword qualityKeywords (lowerList c.name.data) then
          "quality_measure"
        else if anyKeyword efficiencyKeywords (lowerList c.name.data) then
          "efficiency_measure"
        else if anyKeyword timeMeasureKeywords (lowerList c.name.data) then
          "time_measure"
        else "numeric_measure")) ∧
    detectColumnsByRules 0 ⟨[⟨"defect_count", .float, [.num 3]⟩]⟩ =
      [("defect_count", "numeric_measure")] ∧
    detectColumnsByRules 0 ⟨[⟨"downtime_minutes", .float, [.num 30]⟩]⟩ =
      [("downtime_minutes", "date")] ∧
    detectColumnsByRules 0 ⟨[⟨"revenue_usd", .float, [.num 5]⟩]⟩ =
      [("revenue_usd", "numeric_measure")] ∧
    detectColumnsByRules 0 ⟨[⟨"efficiency_pct", .float, [.num 95]⟩]⟩ =
      [("efficiency_pct", "efficiency_measure")] := by
  refine ⟨?_, by decide, by decide, by decide, by decide⟩
  intro now nrows c hf hd
  unfold classifyColumn
  simp only [hd, hf]
  simp

/-- Witness instantiating the universally quantified part of the C1 amended
theorem at the "defect_count" column. -/
theorem c1_amended_witness :
    classifyColumn 0 1 ⟨"defect_count", .float, [.num 3]⟩ = "numeric_measure" :=
  (c1_amended.1 0 1 ⟨"defect_count", .float, [.num 3]⟩ rfl (by decide)).trans
    (by decide)

/-- C10: the blocking checks match whole words only, while the relevance
keywords match as substrings — the irrelevant term "weather" embedded in
"weathered" does not block, the analysis keyword "show" inside "showcase"
counts as a hit, and the query "showcase weathered" is ALLOWED; by contrast
"show weather" (whole words) is BLOCKED_IRRELEVANT. -/
theorem c10_word_boundary_vs_substring :
    irrelevantHit "showcase weathered" = false ∧
    unsafeHit "showcase weathered" = false ∧
    1 ≤ analysisScore "showcase weathered" ∧
    filterQuery "showcase weathered" = .allowed ∧
    filterQuery "show weather" = .blockedIrrelevant := by
  refine ⟨by decide, by decide, by decide, by decide, by decide⟩

/-! ## DataFrame access and assignment -/

/-- Digit-string value, `none` unless non-empty and all digits. -/
def parseDigits (l : List Char) : Option ℕ :=
  if l.isEmpty then none
  else if l.all Char.isDigit then
    some (l.foldl (fun a c => a * 10 + (c.toNat - 48)) 0)
  else none

/-- Parses a plain decimal numeral (optional sign, digits, optional
fractional part) to a rational — the numeric-string grammar that matters for
`pd.to_numeric` and Python `float()` on this repository's data.  Exotic float
syntax (exponents, "inf", "nan") is handled where the source's behavior on
it is claim-relevant. -/
def parseDecimal (s : String) : Option ℚ :=
  let go : List Char → Option ℚ := fun l =>
    match l.splitOn '.' with
    | [ip] => (parseDigits ip).map fun n => (n : ℚ)
    | [ip, fp] =>
      match parseDigits ip, parseDigits fp with
      | some n, some f => some ((n : ℚ) + (f : ℚ) / ((10 : ℚ) ^ fp.length))
      | _, _ => none
    | _ => none
  match s.data with
  | '-' :: t => (go t).map fun q => -q
  | '+' :: t => go t
  | t => go t

/-- First column with the given name (`df[name]` lookup). -/
def findCol : List Column → String → Option Column
  | [], _ => none
  | c :: t, n => if c.name = n then some c else findCol t n

/-- `df[name] = values` on the column list: replace the column in place if
present (pandas keeps its position), append it at the end otherwise. -/
def setColList : List Column → String → Dtype → List PValue → List Column
  | [], n, dt, cs => [⟨n, dt, cs⟩]
  | c :: t, n, dt, cs =>
    if c.name = n then ⟨n, dt, cs⟩ :: t else c :: setColList t n dt cs

/-- `name in df.columns`. -/
def DataFrame.hasCol (df : DataFrame) (n : String) : Bool :=
  (findCol df.cols n).isSome

/-- Cell list of a named column (empty for a missing column; the sources
only read columns they have checked for). -/
def DataFrame.getCells (df : DataFrame) (n : String) : List PValue :=
  ((findCol df.cols n).map Column.cells).getD []

/-- Column assignment on the frame. -/
def DataFrame.setCol (df : DataFrame) (n : String) (dt : Dtype) (cs : List PValue) :
    DataFrame :=
  ⟨setColList df.cols n dt cs⟩

/-- Names of the numeric (float-dtype) columns, in order
(`df.select_dtypes(include=[np.number]).columns`). -/
def DataFrame.numericColNames (df : DataFrame) : List String :=
  (df.cols.filter fun c => c.dtype = .float).map Column.name

/-- `df.empty`: true when the frame has no rows (a frame with no columns has
no rows). -/
def DataFrame.isEmpty (df : DataFrame) : Bool := df.nrows = 0

theorem findCol_setColList_self (l : List Column) (n : String) (dt : Dtype)
    (cs : List PValue) : findCol (setColList l n dt cs) n = some ⟨n, dt, cs⟩ := by
  induction l with
  | nil => simp [setColList, findCol]
  | cons c t ih =>
    by_cases h : c.name = n <;> simp [setColList, findCol, h, ih]

theorem findCol_setColList_ne (l : List Column) (n m : String) (dt : Dtype)
    (cs : List PValue) (h : m ≠ n) :
    findCol (setColList l n dt cs) m = findCol l m := by
  induction l with
  | nil => simp [setColList, findCol, Ne.symm h]
  | cons c t ih =>
    by_cases hc : c.name = n
    · subst hc
      have hcm : ¬c.name = m := fun hh => h hh.symm
      simp [setColList, findCol, hcm]
    · simp [setColList, findCol, hc, ih]

theorem hasCol_setCol_self (df : DataFrame) (n : String) (dt : Dtype)
    (cs : List PValue) : (df.setCol n dt cs).hasCol n = true := by
  simp [DataFrame.hasCol, DataFrame.setCol, findCol_setColList_self]

theorem hasCol_setCol_ne (df : DataFrame) (n m : String) (dt : Dtype)
    (cs : List PValue) (h : m ≠ n) :
    (df.setCol n dt cs).hasCol m = df.hasCol m := by
  simp [DataFrame.hasCol, DataFrame.setCol, findCol_setColList_ne _ _ _ _ _ h]

theorem getCells_setCol_self (df : DataFrame) (n : String) (dt : Dtype)
    (cs : List PValue) : (df.setCol n dt cs).getCells n = cs := by
  simp [DataFrame.getCells, DataFrame.setCol, findCol_setColList_self]

theorem getCells_setCol_ne (df : DataFrame) (n m : String) (dt : Dtype)
    (cs : List PValue) (h : m ≠ n) :
    (df.setCol n dt cs).getCells m = df.getCells m := by
  simp [DataFrame.getCells, DataFrame.setCol, findCol_setColList_ne _ _ _ _ _ h]

/-! ## Float arithmetic with IEEE special values (numpy/pandas semantics) -/

/-- Elementwise float division.  numpy: `x / 0` is `inf` for `x > 0`,
`-inf` for `x < 0` and `nan` for `x = 0` (a RuntimeWarning, never an
exception); NaN and missing values propagate as NaN. -/
def pdiv (x y : PValue) : PValue :=
  match x, y with
  | .num a, .num b =>
    if b = 0 then (if 0 < a then .inf else if a < 0 then .ninf else .nan)
    else .num (a / b)
  | .num _, .inf => .num 0
  | .num _, .ninf => .num 0
  | .inf, .num b => if b < 0 then .ninf else .inf
  | .ninf, .num b => if b < 0 then .inf else .ninf
  | _, _ => .nan

/-- Elementwise float addition. -/
def padd (x y : PValue) : PValue :=
  match x, y with
  | .num a, .num b => .num (a + b)
  | .num _, .inf => .inf
  | .inf, .num _ => .inf
  | .num _, .ninf => .ninf
  | .ninf, .num _ => .ninf
  | .inf, .inf => .inf
  | .ninf, .ninf => .ninf
  | _, _ => .nan

/-- Multiplication by a positive finite scalar `c` (used only with `c = 100`
and implicitly with `1/8` via `pdiv`). -/
def pmulC (c : ℚ) (x : PValue) : PValue :=
  match x with
  | .num a => .num (c * a)
  | .inf => .inf
  | .ninf => .ninf
  | _ => .nan

/-- Subtraction of a value from a finite scalar `c` (used with `c = 100`). -/
def psubFrom (c : ℚ) (x : PValue) : PValue :=
  match x with
  | .num a => .num (c - a)
  | .inf => .ninf
  | .ninf => .inf
  | _ => .nan

/-- `Series.fillna(0)` on one cell: replaces NaN/missing, and nothing else —
in particular infinities pass through. -/
def fillna0 : PValue → PValue
  | .nan => .num 0
  | .null => .num 0
  | v => v

/-- Scalar `pd.to_numeric(x, errors="coerce")`: floats pass through,
strings parse or become NaN, missing becomes NaN.  (On the float-dtype
columns this is applied to below it is the identity.) -/
def toNumericCell : PValue → PValue
  | .num a => .num a
  | .nan => .nan
  | .inf => .inf
  | .ninf => .ninf
  | .null => .nan
  | .str s =>
    match parseDecimal s with
    | some q => .num q
    | none => .nan
  | .date d => .num d

/-- `Series.sum()` with the default `skipna=True`: NaN/missing cells are
skipped and the empty sum is 0. -/
def psum (cells : List PValue) : PValue :=
  cells.foldl (fun acc c => if isNaCell c then acc else padd acc c) (.num 0)

/-- Python `total > 0` where `total` is a float: false for NaN and -inf. -/
def pgtZero : PValue → Bool
  | .num a => decide (0 < a)
  | .inf => true
  | _ => false

/-! ## Derived metrics (`UniversalDataProcessor._calculate_derived_metrics`) -/

/-- The named derived-metric columns the percentage loop skips. -/
def derivedMetricNames : List String :=
  ["defect_rate", "quality_score", "total_production", "production_per_hour",
   "avg_efficiency"]

/-- Defect-rate branch: when both a "defects" and a "production" column
exist, `defect_rate = (defects / production * 100).fillna(0)` and
`quality_score = 100 - defect_rate`.  Note `fillna(0)` replaces only NaN
(from `0 / 0` or a missing operand); `x / 0` with `x > 0` is `inf` and
passes through. -/
def deriveDefect (df : DataFrame) : DataFrame :=
  if df.hasCol "defects" && df.hasCol "production" then
    let dr := (List.zip (df.getCells "defects") (df.getCells "production")).map
      fun p => fillna0 (pmulC 100 (pdiv p.1 p.2))
    (df.setCol "defect_rate" .float dr).setCol "quality_score" .float
      (dr.map (psubFrom 100))
  else df

/-- Production branch: `total_production = production` and
`production_per_hour = production / 8`. -/
def deriveProduction (df : DataFrame) : DataFrame :=
  if df.hasCol "production" then
    (df.setCol "total_production" .float (df.getCells "production")).setCol
      "production_per_hour" .float
      ((df.getCells "production").map fun v => pdiv v (.num 8))
  else df

/-- Efficiency branch: `avg_efficiency = efficiency`. -/
def deriveEfficiency (df : DataFrame) : DataFrame :=
  if df.hasCol "efficiency" then
    df.setCol "avg_efficiency" .float (df.getCells "efficiency")
  else df

/-- One iteration of the percentage loop: for a numeric column not among the
named derived metrics, add `<col>_percentage = (to_numeric(col) / total *
100).fillna(0)` when the column's NaN-skipping total is positive and not
NaN; otherwise leave the frame unchanged.  The source wraps the body in
`try/except ... continue`; the model's arithmetic never raises, and the
per-column structure carries the same guarantee that one column's failure
cannot affect the others. -/
def percentageStep (acc : DataFrame) (col : String) : DataFrame :=
  if derivedMetricNames.contains col then acc
  else
    let ns := (acc.getCells col).map toNumericCell
    let total := psum ns
    if pgtZero total && !isNaCell total then
      acc.setCol (col ++ "_percentage") .float
        (ns.map fun v => fillna0 (pmulC 100 (pdiv v total)))
    else acc

/-- `_calculate_derived_metrics`.  The source copies the frame at entry and
mutates only the copy, so the stage is this pure function.  `numeric_cols`
is read off before any derived column is assigned (source line 375). -/
def calculateDerivedMetrics (df0 : DataFrame) : DataFrame :=
  df0.numericColNames.foldl percentageStep
    (deriveEfficiency (deriveProduction (deriveDefect df0)))

/-- The C3 failing input: one row with `defects = 5, production = 0`, one
with `0, 0`, and one with `3, null`. -/
def dfC3 : DataFrame :=
  ⟨[⟨"defects", .float, [.num 5, .num 0, .num 3]⟩,
    ⟨"production", .float, [.num 0, .num 0, .null]⟩]⟩

/-- C3: evaluating the derived-metrics stage at the failing input
`defects = 5, production = 0` yields `defect_rate = +inf` (and
`quality_score = -inf`), not the 0 the claim states: `5 / 0` is `inf`, which
`fillna(0)` does not replace.  The `0 / 0` and null-production rows do yield
0 as claimed. -/
theorem c3_defect_rate_inf_at_zero_production :
    (calculateDerivedMetrics dfC3).getCells "defect_rate" =
      [.inf, .num 0, .num 0] ∧
    (calculateDerivedMetrics dfC3).getCells "quality_score" =
      [.ninf, .num 100, .num 100] ∧
    PValue.inf ≠ PValue.num 0 := by
  refine ⟨?_, ?_, by decide⟩ <;>
    norm_num +decide [calculateDerivedMetrics, dfC3, deriveDefect,
      deriveProduction, deriveEfficiency, percentageStep, DataFrame.hasCol,
      DataFrame.getCells, DataFrame.setCol, DataFrame.numericColNames, findCol,
      setColList, pdiv, pmulC, psubFrom, fillna0, psum, padd, toNumericCell,
      pgtZero, isNaCell, derivedMetricNames]

/-- NaN-skipping total of a column after `to_numeric` coercion — the
`total` the percentage loop tests. -/
def colTotal (df : DataFrame) (col : String) : PValue :=
  psum ((df.getCells col).map toNumericCell)

/-- The cells the percentage loop writes for a column whose total passes. -/
def colPercentage (df : DataFrame) (col : String) : List PValue :=
  ((df.getCells col).map toNumericCell).map
    fun v => fillna0 (pmulC 100 (pdiv v (colTotal df col)))

theorem string_append_right_cancel {a b : String} (s : String)
    (h : a ++ s = b ++ s) : a = b := by
  have hd := congrArg String.data h
  rw [String.data_append, String.data_append] at hd
  exact String.ext (List.append_cancel_right hd)

theorem append_suffix_ne (col d : String)
    (hd : ¬ ("_percentage".data <:+ d.data)) : col ++ "_percentage" ≠ d := by
  intro h
  apply hd
  rw [← h, String.data_append]
  exact List.suffix_append _ _

theorem deriveDefect_getCells_ne (df : DataFrame) (m : String)
    (h1 : m ≠ "defect_rate") (h2 : m ≠ "quality_score") :
    (deriveDefect df).getCells m = df.getCells m := by
  unfold deriveDefect
  split
  · rw [getCells_setCol_ne _ _ _ _ _ h2, getCells_setCol_ne _ _ _ _ _ h1]
  · rfl

theorem deriveDefect_hasCol_ne (df : DataFrame) (m : String)
    (h1 : m ≠ "defect_rate") (h2 : m ≠ "quality_score") :
    (deriveDefect df).hasCol m = df.hasCol m := by
  unfold deriveDefect
  split
  · rw [hasCol_setCol_ne _ _ _ _ _ h2, hasCol_setCol_ne _ _ _ _ _ h1]
  · rfl

theorem deriveProduction_getCells_ne (df : DataFrame) (m : String)
    (h1 : m ≠ "total_production") (h2 : m ≠ "production_per_hour") :
    (deriveProduction df).getCells m = df.getCells m := by
  unfold deriveProduction
  split
  · rw [getCells_setCol_ne _ _ _ _ _ h2, getCells_setCol_ne _ _ _ _ _ h1]
  · rfl

theorem deriveProduction_hasCol_ne (df : DataFrame) (m : String)
    (h1 : m ≠ "total_production") (h2 : m ≠ "production_per_hour") :
    (deriveProduction df).hasCol m = df.hasCol m := by
  unfold deriveProduction
  split
  · rw [hasCol_setCol_ne _ _ _ _ _ h2, hasCol_setCol_ne _ _ _ _ _ h1]
  · rfl

theorem deriveEfficiency_getCells_ne (df : DataFrame) (m : String)
    (h1 : m ≠ "avg_efficiency") :
    (deriveEfficiency df).getCells m = df.getCells m := by
  unfold deriveEfficiency
  split
  · rw [getCells_setCol_ne _ _ _ _ _ h1]
  · rfl

theorem deriveEfficiency_hasCol_ne (df : DataFrame) (m : String)
    (h1 : m ≠ "avg_efficiency") :
    (deriveEfficiency df).hasCol m = df.hasCol m := by
  unfold deriveEfficiency
  split
  · rw [hasCol_setCol_ne _ _ _ _ _ h1]
  · rfl

theorem percentageStep_getCells_ne (acc : DataFrame) (c m : String)
    (h : c ++ "_percentage" ≠ m) :
    (percentageStep acc c).getCells m = acc.getCells m := by
  simp only [percentageStep]
  split
  · rfl
  · split
    · exact getCells_setCol_ne _ _ _ _ _ (Ne.symm h)
    · rfl

theorem percentageStep_hasCol_ne (acc : DataFrame) (c m : String)
    (h : c ++ "_percentage" ≠ m) :
    (percentageStep acc c).hasCol m = acc.hasCol m := by
  simp only [percentageStep]
  split
  · rfl
  · split
    · exact hasCol_setCol_ne _ _ _ _ _ (Ne.symm h)
    · rfl

theorem foldl_percentageStep_getCells (l : List String) (acc : DataFrame)
    (m : String) (h : ∀ c ∈ l, c ++ "_percentage" ≠ m) :
    (l.foldl percentageStep acc).getCells m = acc.getCells m := by
  induction l generalizing acc with
  | nil => rfl
  | cons c t ih =>
    rw [List.foldl_cons, ih _ fun x hx => h x (List.mem_cons_of_mem _ hx),
      percentageStep_getCells_ne _ _ _ (h c (List.mem_cons_self _ _))]

theorem foldl_percentageStep_hasCol (l : List String) (acc : DataFrame)
    (m : String) (h : ∀ c ∈ l, c ++ "_percentage" ≠ m) :
    (l.foldl percentageStep acc).hasCol m = acc.hasCol m := by
  induction l generalizing acc with
  | nil => rfl
  | cons c t ih =>
    rw [List.foldl_cons, ih _ fun x hx => h x (List.mem_cons_of_mem _ hx),
      percentageStep_hasCol_ne _ _ _ (h c (List.mem_cons_self _ _))]

theorem foldl_percentageStep_main (col : String) (V : List PValue)
    (hnd : derivedMetricNames.contains col = false) (l : List String)
    (acc : DataFrame) (hmem : col ∈ l) (hnodup : l.Nodup)
    (hpre : ∀ c ∈ l, c ++ "_percentage" ≠ col)
    (hV : acc.getCells col = V)
    (habs : acc.hasCol (col ++ "_percentage") = false) :
    ((l.foldl percentageStep acc).hasCol (col ++ "_percentage") =
      (pgtZero (psum (V.map toNumericCell)) &&
        !isNaCell (psum (V.map toNumericCell)))) ∧
    ((pgtZero (psum (V.map toNumericCell)) &&
        !isNaCell (psum (V.map toNumericCell))) = true →
      (l.foldl percentageStep acc).getCells (col ++ "_percentage") =
        (V.map toNumericCell).map
          fun v => fillna0 (pmulC 100 (pdiv v (psum (V.map toNumericCell))))) := by
  induction l generalizing acc with
  | nil => cases hmem
  | cons c t ih =>
    rw [List.foldl_cons]
    by_cases hc : c = col
    · subst hc
      have hcolnot : c ∉ t := (List.nodup_cons.mp hnodup).1
      have htne : ∀ x ∈ t, x ++ "_percentage" ≠ c ++ "_percentage" := by
        intro x hx h
        exact hcolnot (string_append_right_cancel _ h ▸ hx)
      have hstep : percentageStep acc c =
          if pgtZero (psum (V.map toNumericCell)) &&
              !isNaCell (psum (V.map toNumericCell)) then
            acc.setCol (c ++ "_percentage") .float
              ((V.map toNumericCell).map
                fun v => fillna0 (pmulC 100 (pdiv v (psum (V.map toNumericCell)))))
          else acc := by
        unfold percentageStep
        rw [hnd, hV]
        rfl
      by_cases hcond : (pgtZero (psum (V.map toNumericCell)) &&
          !isNaCell (psum (V.map toNumericCell))) = true
      · rw [hstep, if_pos hcond]
        refine ⟨?_, fun _ => ?_⟩
        · rw [foldl_percentageStep_hasCol _ _ _ htne, hasCol_setCol_self, hcond]
        · rw [foldl_percentageStep_getCells _ _ _ htne, getCells_setCol_self]
      · have hcond' := Bool.not_eq_true _ |>.mp hcond
        rw [hstep, if_neg hcond]
        refine ⟨?_, fun hgt => absurd hgt hcond⟩
        rw [foldl_percentageStep_hasCol _ _ _ htne, habs, hcond']
    · have hmem' : col ∈ t := by
        rcases List.mem_cons.mp hmem with h | h
        · exact absurd h.symm hc
        · exact h
      have hstepV : (percentageStep acc c).getCells col = V := by
        rw [percentageStep_getCells_ne _ _ _ (hpre c (List.mem_cons_self _ _)), hV]
      have hstepAbs : (percentageStep acc c).hasCol (col ++ "_percentage") = false := by
        rw [percentageStep_hasCol_ne _ _ _ ?_, habs]
        intro h
        exact hc (string_append_right_cancel _ h)
      exact ih (percentageStep acc c) hmem' (List.nodup_cons.mp hnodup).2
        (fun x hx => hpre x (List.mem_cons_of_mem _ hx)) hstepV hstepAbs

/-- C7: for every numeric column `col` outside the named derived metrics
(and whose percentage name is fresh, no column being itself a percentage of
another), the derived-metrics stage adds `<col>_percentage` if and only if
the column's NaN-skipping total is positive (and not NaN — in Python
`total > 0` is already false for NaN), in which case the new column holds
`value / total * 100` with NaN filled by 0; the condition and the written
cells depend only on `col`'s own cells, so one skipped or failing column
cannot affect any other column's derivation. -/
theorem c7_percentage_column_iff (df : DataFrame) (col : String)
    (hnodup : (df.cols.map Column.name).Nodup)
    (hcol : col ∈ df.numericColNames)
    (hnd : derivedMetricNames.contains col = false)
    (habs : df.hasCol (col ++ "_percentage") = false)
    (hpre : ∀ c ∈ df.numericColNames, c ++ "_percentage" ≠ col) :
    ((calculateDerivedMetrics df).hasCol (col ++ "_percentage") =
      (pgtZero (colTotal df col) && !isNaCell (colTotal df col))) ∧
    ((pgtZero (colTotal df col) && !isNaCell (colTotal df col)) = true →
      (calculateDerivedMetrics df).getCells (col ++ "_percentage") =
        colPercentage df col) := by
  have hne1 : col ≠ "defect_rate" := by
    rintro rfl; exact absurd hnd (by decide)
  have hne2 : col ≠ "quality_score" := by
    rintro rfl; exact absurd hnd (by decide)
  have hne3 : col ≠ "total_production" := by
    rintro rfl; exact absurd hnd (by decide)
  have hne4 : col ≠ "production_per_hour" := by
    rintro rfl; exact absurd hnd (by decide)
  have hne5 : col ≠ "avg_efficiency" := by
    rintro rfl; exact absurd hnd (by decide)
  have ht1 : col ++ "_percentage" ≠ "defect_rate" :=
    append_suffix_ne _ _ (by decide)
  have ht2 : col ++ "_percentage" ≠ "quality_score" :=
    append_suffix_ne _ _ (by decide)
  have ht3 : col ++ "_percentage" ≠ "total_production" :=
    append_suffix_ne _ _ (by decide)
  have ht4 : col ++ "_percentage" ≠ "production_per_hour" :=
    append_suffix_ne _ _ (by decide)
  have ht5 : col ++ "_percentage" ≠ "avg_efficiency" :=
    append_suffix_ne _ _ (by decide)
  have hVmid :
      (deriveEfficiency (deriveProduction (deriveDefect df))).getCells col =
        df.getCells col := by
    rw [deriveEfficiency_getCells_ne _ _ hne5,
      deriveProduction_getCells_ne _ _ hne3 hne4,
      deriveDefect_getCells_ne _ _ hne1 hne2]
  have habsmid :
      (deriveEfficiency (deriveProduction (deriveDefect df))).hasCol
        (col ++ "_percentage") = false := by
    rw [deriveEfficiency_hasCol_ne _ _ ht5,
      deriveProduction_hasCol_ne _ _ ht3 ht4,
      deriveDefect_hasCol_ne _ _ ht1 ht2, habs]
  have hnodup' : df.numericColNames.Nodup :=
    hnodup.sublist ((List.filter_sublist df.cols).map Column.name)
  exact foldl_percentageStep_main col (df.getCells col) hnd
    df.numericColNames _ hcol hnodup' hpre hVmid habsmid

/-- Witness instantiating C7 on a two-column frame: the "temperature"
column's total is positive, so "temperature_percentage" is added with the
value/total × 100 cells. -/
theorem c7_percentage_column_iff_witness :
    ((calculateDerivedMetrics
        ⟨[⟨"production", .float, [.num 2, .num 6]⟩,
          ⟨"temperature", .float, [.num 4, .num 4]⟩]⟩).hasCol
      ("temperature" ++ "_percentage") =
      (pgtZero (colTotal
          ⟨[⟨"production", .float, [.num 2, .num 6]⟩,
            ⟨"temperature", .float, [.num 4, .num 4]⟩]⟩ "temperature") &&
        !isNaCell (colTotal
          ⟨[⟨"production", .float, [.num 2, .num 6]⟩,
            ⟨"temperature", .float, [.num 4, .num 4]⟩]⟩ "temperature"))) ∧
    ((pgtZero (colTotal
          ⟨[⟨"production", .float, [.num 2, .num 6]⟩,
            ⟨"temperature", .float, [.num 4, .num 4]⟩]⟩ "temperature") &&
        !isNaCell (colTotal
          ⟨[⟨"production", .float, [.num 2, .num 6]⟩,
            ⟨"temperature", .float, [.num 4, .num 4]⟩]⟩ "temperature")) = true →
      (calculateDerivedMetrics
          ⟨[⟨"production", .float, [.num 2, .num 6]⟩,
            ⟨"temperature", .float, [.num 4, .num 4]⟩]⟩).getCells
        ("temperature" ++ "_percentage") =
        colPercentage
          ⟨[⟨"production", .float, [.num 2, .num 6]⟩,
            ⟨"temperature", .float, [.num 4, .num 4]⟩]⟩ "temperature") :=
  c7_percentage_column_iff
    ⟨[⟨"production", .float, [.num 2, .num 6]⟩,
      ⟨"temperature", .float, [.num 4, .num 4]⟩]⟩ "temperature"
    (by decide) (by decide) (by decide) (by decide) (by decide)

/-! ## Date filtering (`UniversalDataProcessor._apply_date_filter` /
`_parse_date_expression`) -/

/-- The date-column lookup shared by `_apply_date_filter` and
`_get_grouping_columns`: the first column whose lowercased name contains
"date" or "time". -/
def findDateColumn (df : DataFrame) : Option String :=
  (df.cols.find? fun c =>
    containsSub "date".data (lowerList c.name.data) ||
      containsSub "time".data (lowerList c.name.data)).map Column.name

/-- `pd.to_datetime(date_expr)` on a string (the raising form used for the
first attempt in `_parse_date_expression`). -/
def toDatetimeStr (now : ℤ) (s : String) : Option ℤ :=
  if s = "now" ∨ s = "today" then some now
  else parseISODate s

/-- One cell of `pd.to_datetime(series, errors="coerce")`: failures become
NaT instead of raising. -/
def toDatetimeCoerce (now : ℤ) (v : PValue) : PValue :=
  match toDatetimeScalar now v with
  | some w => w
  | none => .null

/-- Datetime view of a column: its own cells when already datetime64,
otherwise the coerced conversion `_parse_date_expression` performs before
taking the max. -/
def dateCellsOf (now : ℤ) (c : Column) : List PValue :=
  if c.dtype = .datetime then c.cells else c.cells.map (toDatetimeCoerce now)

/-- `Series.max()` over datetime cells, skipping NaT; `none` models an
all-NaT (or empty) column whose max is NaT. -/
def maxDate (cells : List PValue) : Option ℤ :=
  (cells.filterMap fun v =>
    match v with
    | .date d => some d
    | _ => none).max?

/-- Length of the leading digit run. -/
def digitRun : List Char → ℕ
  | [] => 0
  | c :: t => if c.isDigit then digitRun t + 1 else 0

/-- Drops leading regex whitespace (`\s*`). -/
def skipWs : List Char → List Char
  | [] => []
  | c :: t =>
    if c = ' ' ∨ c = '\t' ∨ c = '\n' ∨ c = '\r' then skipWs t else c :: t

/-- Value of a digit string. -/
def digitsVal (l : List Char) : ℕ :=
  l.foldl (fun a c => a * 10 + (c.toNat - 48)) 0

/-- Greedy-with-backtracking match of `(\d+)\s*days?` starting at a fixed
position whose digit run has length `r`: try the longest digit group first,
then shorter ones, requiring `day` after optional whitespace. -/
def tryDigitGroup (rest : List Char) : ℕ → Option ℕ
  | 0 => none
  | k + 1 =>
    if headMatches "day".data (skipWs (rest.drop (k + 1))) then
      some (digitsVal (rest.take (k + 1)))
    else tryDigitGroup rest k

/-- Models `re.search(r"(\d+)\s*days?", e)` followed by `int(group(1))`:
the leftmost start position wins, and at each position the digit group is
greedy. -/
def extractDays (s : List Char) : Option ℕ :=
  (List.range s.length).foldr
    (fun i acc =>
      match tryDigitGroup (s.drop i) (digitRun (s.drop i)) with
      | some n => some n
      | none => acc)
    none

/-- The reference date the relative expressions resolve against: the date
column's max when the frame is non-empty and has the column (falling back to
`pd.Timestamp.now()` when the max is NaT), the wall clock otherwise. -/
def referenceDate (now : ℤ) (df : DataFrame) (dateColumn : String) : ℤ :=
  if !df.isEmpty && df.hasCol dateColumn then
    match (findCol df.cols dateColumn).map (dateCellsOf now) with
    | some cells =>
      match maxDate cells with
      | some m => m
      | none => now
    | none => now
  else now

/-- `_parse_date_expression`.  The first `try` hands the expression to
`pd.to_datetime`; when that raises, the relative keywords are tested in the
source's `elif` order against the lowercased expression, each resolving
against `referenceDate`.  A `last ... days` expression with no extractable
digit count falls through every branch and returns `None`. -/
def parseDateExpression (now : ℤ) (df : DataFrame) (dateColumn : String)
    (dateExpr : String) : Option ℤ :=
  if dateExpr = "" then none
  else
    match toDatetimeStr now dateExpr with
    | some t => some t
    | none =>
      let today := referenceDate now df dateColumn
      let e := lowerList dateExpr.data
      if containsSub "last week".data e then some (today - 7)
      else if containsSub "last month".data e then some (today - 30)
      else if containsSub "last".data e && containsSub "days".data e then
        match extractDays e with
        | some n => some (today - (n : ℤ))
        | none => none
      else if containsSub "yesterday".data e then some (today - 1)
      else if containsSub "today".data e then some today
      else none

/-- Drops the rows of every column where the mask is false
(`df = df[mask]`). -/
def applyMask (df : DataFrame) (keep : List Bool) : DataFrame :=
  ⟨df.cols.map fun c =>
    ⟨c.name, c.dtype,
      (List.zip c.cells keep).filterMap fun p =>
        if p.2 then some p.1 else none⟩⟩

/-- Models `df[col] = pd.to_datetime(df[col], errors="coerce")` guarded by
the dtype check (`is_datetime64_any_dtype`). -/
def coerceDatetimeCol (now : ℤ) (df : DataFrame) (n : String) : DataFrame :=
  match findCol df.cols n with
  | some c =>
    if c.dtype = .datetime then df
    else df.setCol n .datetime (c.cells.map (toDatetimeCoerce now))
  | none => df

/-- Boolean mask of a datetime comparison; NaT compares false and the row is
dropped. -/
def dateMask (cells : List PValue) (pred : ℤ → Bool) : List Bool :=
  cells.map fun v =>
    match v with
    | .date d => pred d
    | _ => false

/-- A `date_range` instruction field: optional start/end expression. -/
structure DateRange where
  start? : Option String
  stop? : Option String

/-- `_apply_date_filter`: locate the date column, resolve both bounds
against the unfiltered frame, then apply the `>= start` mask and the
`<= end` mask in sequence.  A missing date column is a no-op.  An empty
string bound is falsy in Python and skipped. -/
def applyDateFilter (now : ℤ) (df0 : DataFrame) (range : DateRange) :
    DataFrame :=
  match findDateColumn df0 with
  | none => df0
  | some dcol =>
    let startVal :=
      match range.start? with
      | some s => if s = "" then none else parseDateExpression now df0 dcol s
      | none => none
    let endVal :=
      match range.stop? with
      | some s => if s = "" then none else parseDateExpression now df0 dcol s
      | none => none
    let df1 :=
      match startVal with
      | some t =>
        let dfc := coerceDatetimeCol now df0 dcol
        applyMask dfc (dateMask (dfc.getCells dcol) fun d => t ≤ d)
      | none => df0
    match endVal with
    | some t =>
      let dfc := coerceDatetimeCol now df1 dcol
      applyMask dfc (dateMask (dfc.getCells dcol) fun d => d ≤ t)
    | none => df1

/-- C4 counterexample input: a dataset whose date column has maximum day
200. -/
def dfC4 : DataFrame :=
  ⟨[⟨"date", .datetime, [.date 100, .date 200]⟩,
    ⟨"production", .float, [.num 5, .num 7]⟩]⟩

/-- C4 counterexample: with wall clock 9999 and dataset maximum date 200,
the expression "today" resolves to the wall clock, not the dataset maximum:
pandas' `to_datetime` accepts the special string "today" and returns the
current time, so the first `try` in `_parse_date_expression` returns before
the max-date logic runs. -/
theorem c4_counterexample :
    parseDateExpression 9999 dfC4 "date" "today" = some 9999 ∧
    (some (9999 : ℤ) ≠ some (200 : ℤ)) := by
  refine ⟨by decide, by decide⟩

/-- C4 amended: for a non-empty dataset whose located date column is a
datetime column with maximum value `m`, the relative expressions
"last week", "last month", "last N days" and "yesterday" resolve against
`m` (max_date − 7 / − 30 / − N / − 1 respectively) rather than the wall
clock; "today", however, is consumed by `pd.to_datetime`'s special-string
handling and resolves to the wall clock `now`, not `m`. -/
theorem c4_relative_dates_use_dataset_max (now : ℤ) (df : DataFrame)
    (dcol : String) (col : Column) (m : ℤ)
    (_hfind : findDateColumn df = some dcol)
    (hcol : findCol df.cols dcol = some col)
    (hdt : col.dtype = .datetime)
    (hmax : maxDate col.cells = some m)
    (hne : df.isEmpty = false) :
    parseDateExpression now df dcol "last week" = some (m - 7) ∧
    parseDateExpression now df dcol "last month" = some (m - 30) ∧
    parseDateExpression now df dcol "last 3 days" = some (m - 3) ∧
    parseDateExpression now df dcol "yesterday" = some (m - 1) ∧
    parseDateExpression now df dcol "today" = some now := by
  have hhas : df.hasCol dcol = true := by
    rw [DataFrame.hasCol, hcol]
    rfl
  have href : referenceDate now df dcol = m := by
    unfold referenceDate
    rw [hne, hhas, hcol]
    simp [dateCellsOf, hdt, hmax]
  have hex : extractDays (lowerList "last 3 days".data) = some 3 := by decide
  refine ⟨?_, ?_, ?_, ?_, ?_⟩ <;>
    simp +decide [parseDateExpression, toDatetimeStr, parseISODate, href, hex]

/-- Witness instantiating the C4 amended theorem on the concrete frame with
maximum date 200 and wall clock 9999. -/
theorem c4_relative_dates_use_dataset_max_witness :
    parseDateExpression 9999 dfC4 "date" "last week" = some (200 - 7) ∧
    parseDateExpression 9999 dfC4 "date" "last month" = some (200 - 30) ∧
    parseDateExpression 9999 dfC4 "date" "last 3 days" = some (200 - 3) ∧
    parseDateExpression 9999 dfC4 "date" "yesterday" = some (200 - 1) ∧
    parseDateExpression 9999 dfC4 "date" "today" = some 9999 :=
  c4_relative_dates_use_dataset_max 9999 dfC4 "date"
    ⟨"date", .datetime, [.date 100, .date 200]⟩ 200
    (by decide) (by decide) rfl (by decide) (by decide)

/-! ## Aggregation (`UniversalDataProcessor.aggregate_data`,
`_get_grouping_columns`, `_get_aggregation_functions`) -/

/-- The ISO week cells `_get_grouping_columns` writes for weekly grouping
(`df[date_col].dt.isocalendar().week`, an unsigned-integer — hence
numeric — column; NaT yields a missing value). -/
def weekCellsOf (df : DataFrame) (c : String) : List PValue :=
  (df.getCells c).map fun v =>
    match v with
    | .date d => .num (isoWeek d)
    | _ => .null

/-- The month-period cells for monthly grouping
(`df[date_col].dt.to_period("M")`, a Period — hence non-numeric —
column). -/
def monthCellsOf (df : DataFrame) (c : String) : List PValue :=
  (df.getCells c).map fun v =>
    match v with
    | .date d => .num (monthPeriod d)
    | _ => .null

/-- `_get_grouping_columns`, as a state transformer: the weekly/monthly
branches assign the derived calendar column onto the frame they were passed
(`df["week"] = ...` with no copy), so the possibly-mutated frame is returned
alongside the chosen grouping columns.  All other branches leave the frame
untouched. -/
def getGroupingColumns (grouping : String) (df : DataFrame) :
    List String × DataFrame :=
  let dateCol := findDateColumn df
  if grouping = "daily" then
    (match dateCol with
     | some c => [c]
     | none => [], df)
  else if grouping = "weekly" then
    match dateCol with
    | some c => (["week"], df.setCol "week" .float (weekCellsOf df c))
    | none => ([], df)
  else if grouping = "monthly" then
    match dateCol with
    | some c => (["month"], df.setCol "month" .otherType (monthCellsOf df c))
    | none => ([], df)
  else if grouping = "shift" then
    (((df.cols.filter fun c =>
        containsSub "shift".data (lowerList c.name.data)).map
      Column.name).take 1, df)
  else if grouping = "line" then
    (((df.cols.filter fun c =>
        containsSub "line".data (lowerList c.name.data)).map
      Column.name).take 1, df)
  else if grouping = "operator" then
    (((df.cols.filter fun c =>
        containsSub "operator".data (lowerList c.name.data) ||
          containsSub "worker".data (lowerList c.name.data)).map
      Column.name).take 1, df)
  else ([], df)

/-- The reduction list for one numeric column
(`_get_aggregation_functions` body): requested operations in the source's
fixed order, else the name-based default. -/
def aggFuncsFor (calculations : List String) (name : String) : List String :=
  let fs :=
    (if calculations.contains "sum" then ["sum"] else []) ++
    (if calculations.contains "mean" || calculations.contains "average" then
      ["mean"] else []) ++
    (if calculations.contains "max" then ["max"] else []) ++
    (if calculations.contains "min" then ["min"] else []) ++
    (if calculations.contains "count" then ["count"] else [])
  if fs.isEmpty then
    if name = "production" ∨ name = "defects" ∨ name = "downtime" then ["sum"]
    else if name = "efficiency" ∨ name = "defect_rate" ∨
        name = "quality_score" then ["mean"]
    else ["sum"]
  else fs

/-- `_get_aggregation_functions`: one entry per numeric column. -/
def getAggregationFunctions (calculations : List String) (df : DataFrame) :
    List (String × List String) :=
  (df.cols.filter fun c => c.dtype = .float).map fun c =>
    (c.name, aggFuncsFor calculations c.name)

/-- Group-key ordering used to sort groups (pandas sorts groups by key;
keys of mixed types would raise in pandas and are ordered by constructor
here). -/
def pvalLe (a b : PValue) : Bool :=
  match a, b with
  | .num x, .num y => x ≤ y
  | .str x, .str y => x ≤ y
  | .date x, .date y => x ≤ y
  | .num _, _ => true
  | _, .num _ => false
  | .str _, _ => true
  | _, .str _ => false
  | .date _, _ => true
  | _, .date _ => false
  | _, _ => true

/-- Lexicographic order on key tuples. -/
def keyLe : List PValue → List PValue → Bool
  | [], _ => true
  | _ :: _, [] => false
  | a :: as, b :: bs => if a = b then keyLe as bs else pvalLe a b

/-- Insertion step of a structural insertion sort. -/
def insertSorted (x : List PValue) : List (List PValue) → List (List PValue)
  | [] => [x]
  | y :: t => if keyLe x y then x :: y :: t else y :: insertSorted x t

/-- Sorts the group keys. -/
def sortKeys (l : List (List PValue)) : List (List PValue) :=
  l.foldr insertSorted []

/-- The key tuple of row `i` under the grouping columns. -/
def rowKey (df : DataFrame) (gcols : List String) (i : ℕ) : List PValue :=
  gcols.map fun g => (df.getCells g).getD i .null

/-- Distinct group keys in sorted order; rows with a missing key value are
dropped (`groupby` defaults to `dropna=True`, `sort=True`). -/
def groupKeys (df : DataFrame) (gcols : List String) : List (List PValue) :=
  sortKeys ((((List.range df.nrows).map (rowKey df gcols)).filter fun k =>
    !k.any fun v => isNaCell v).dedup)

/-- Row indices belonging to a group. -/
def groupRows (df : DataFrame) (gcols : List String) (k : List PValue) :
    List ℕ :=
  (List.range df.nrows).filter fun i => rowKey df gcols i = k

/-- One reduction over the cells of a group (`sum`/`mean`/`max`/`min`/
`count` with pandas' skipna semantics; an all-missing group yields NaN for
`mean`/`max`/`min`). -/
def aggCell (f : String) (cells : List PValue) : PValue :=
  let nn := cells.filter fun v => !isNaCell v
  if f = "sum" then psum cells
  else if f = "mean" then
    if nn.isEmpty then .nan else pdiv (psum cells) (.num nn.length)
  else if f = "max" then
    match nn with
    | [] => .nan
    | x :: xs => xs.foldl (fun a b => if pvalLe a b then b else a) x
  else if f = "min" then
    match nn with
    | [] => .nan
    | x :: xs => xs.foldl (fun a b => if pvalLe b a then b else a) x
  else if f = "count" then .num nn.length
  else .null

/-- Python `str.strip("_")`. -/
def stripUnderscores (s : String) : String :=
  ⟨((s.data.dropWhile fun c => c = '_').reverse.dropWhile fun c =>
    c = '_').reverse⟩

/-- `df.groupby(group_cols).agg(agg_funcs).reset_index()` with the source's
MultiIndex flattening: the group-key columns come first, then one column
per (column, reduction) pair, named `<col>_<func>` (then `strip("_")`)
exactly when some column has more than one reduction (the MultiIndex case),
and plainly `<col>` otherwise.  pandas may raise inside the source's
`try` for some inputs (e.g. an aggregation dict naming a grouping column),
in which case the source returns the frame it was passed; the claims below
only concern the skip path and the mutation of the input, neither of which
depends on this value. -/
def groupbyAgg (df : DataFrame) (gcols : List String)
    (aggDict : List (String × List String)) : DataFrame :=
  let keys := groupKeys df gcols
  let anyMulti := aggDict.any fun p => p.2.length ≠ 1
  let keyCols : List Column := gcols.enum.map fun gi =>
    ⟨gi.2,
      (match findCol df.cols gi.2 with
       | some c => c.dtype
       | none => .otherType),
      keys.map fun k => k.getD gi.1 .null⟩
  let valueCols : List Column := aggDict.flatMap fun p =>
    p.2.map fun f =>
      ⟨if anyMulti then stripUnderscores (p.1 ++ "_" ++ f) else p.1, .float,
        keys.map fun k =>
          aggCell f ((groupRows df gcols k).map fun i =>
            (df.getCells p.1).getD i .null)⟩
  ⟨keyCols ++ valueCols⟩

/-- `aggregate_data`, as a state transformer `(result, input after the
call)`: an empty frame or an empty grouping-column list short-circuits to
the input unchanged; otherwise the (possibly week/month-augmented) frame is
grouped and the augmented frame is also the caller's frame afterwards. -/
def aggregateData (df : DataFrame) (grouping : String)
    (calculations : List String) : DataFrame × DataFrame :=
  if df.isEmpty then (df, df)
  else
    match getGroupingColumns grouping df with
    | ([], df') => (df', df')
    | (gcols, df') =>
      (groupbyAgg df' gcols (getAggregationFunctions calculations df'), df')

theorem aggregateData_of_nil (df : DataFrame) (g : String)
    (calcs : List String) (hnil : getGroupingColumns g df = ([], df)) :
    aggregateData df g calcs = (df, df) := by
  unfold aggregateData
  split
  · rfl
  · rw [hnil]

/-- C6: aggregation with a grouping that needs a date column when none
exists, or a keyword grouping (shift/line/operator) whose keyword column is
absent, is skipped: the call returns the input dataset unchanged and leaves
it unmodified (the model is total — no exception path is reachable on the
skip branch). -/
theorem c6_aggregation_skipped_unchanged (df : DataFrame) (g : String)
    (calcs : List String)
    (h : (g ∈ (["daily", "weekly", "monthly"] : List String) ∧
            findDateColumn df = none) ∨
         (g = "shift" ∧ (df.cols.all fun c =>
            !containsSub "shift".data (lowerList c.name.data)) = true) ∨
         (g = "line" ∧ (df.cols.all fun c =>
            !containsSub "line".data (lowerList c.name.data)) = true) ∨
         (g = "operator" ∧ (df.cols.all fun c =>
            !(containsSub "operator".data (lowerList c.name.data) ||
              containsSub "worker".data (lowerList c.name.data))) = true)) :
    aggregateData df g calcs = (df, df) := by
  apply aggregateData_of_nil
  rcases h with ⟨hg, hdate⟩ | ⟨hg, hnone⟩ | ⟨hg, hnone⟩ | ⟨hg, hnone⟩
  · simp only [List.mem_cons, List.mem_singleton, List.not_mem_nil,
      or_false] at hg
    rcases hg with rfl | rfl | rfl <;> simp [getGroupingColumns, hdate]
  · subst hg
    rw [List.all_eq_true] at hnone
    have hfil : (df.cols.filter fun c =>
        containsSub "shift".data (lowerList c.name.data)) = [] :=
      List.filter_eq_nil_iff.mpr fun c hc => by
        simpa using hnone c hc
    simp [getGroupingColumns, hfil]
  · subst hg
    rw [List.all_eq_true] at hnone
    have hfil : (df.cols.filter fun c =>
        containsSub "line".data (lowerList c.name.data)) = [] :=
      List.filter_eq_nil_iff.mpr fun c hc => by
        simpa using hnone c hc
    simp [getGroupingColumns, hfil]
  · subst hg
    rw [List.all_eq_true] at hnone
    have hfil : (df.cols.filter fun c =>
        containsSub "operator".data (lowerList c.name.data) ||
          containsSub "worker".data (lowerList c.name.data)) = [] :=
      List.filter_eq_nil_iff.mpr fun c hc => by
        simpa using hnone c hc
    simp [getGroupingColumns, hfil]

/-- Witness instantiating C6: grouping "shift" on a dataset with no
shift-named column returns the input unchanged. -/
theorem c6_aggregation_skipped_unchanged_witness :
    aggregateData ⟨[⟨"production", .float, [.num 1, .num 2]⟩]⟩ "shift"
      ["sum"] =
      (⟨[⟨"production", .float, [.num 1, .num 2]⟩]⟩,
       ⟨[⟨"production", .float, [.num 1, .num 2]⟩]⟩) :=
  c6_aggregation_skipped_unchanged _ "shift" ["sum"]
    (Or.inr (Or.inl ⟨rfl, by decide⟩))

theorem aggregateData_snd (df : DataFrame) (g : String)
    (calcs : List String) :
    (aggregateData df g calcs).2 =
      if df.isEmpty then df else (getGroupingColumns g df).2 := by
  by_cases h : df.isEmpty
  · rw [aggregateData, if_pos h, if_pos h]
  · rw [aggregateData, if_neg h, if_neg h]
    rcases hgd : getGroupingColumns g df with ⟨gcols, df'⟩
    cases gcols
    · rfl
    · rfl

theorem getGroupingColumns_snd_of_ne (g : String) (df : DataFrame)
    (h1 : g ≠ "weekly") (h2 : g ≠ "monthly") :
    (getGroupingColumns g df).2 = df := by
  unfold getGroupingColumns
  split_ifs <;> rfl

theorem getGroupingColumns_snd_nodate (g : String) (df : DataFrame)
    (h : findDateColumn df = none) :
    (getGroupingColumns g df).2 = df := by
  unfold getGroupingColumns
  split_ifs <;> simp [h]

/-- The chart-preparation instruction fields `prepare_chart_data` reads,
with `none` for an absent key (defaults applied as in the source). -/
structure ChartInstruction where
  chartType : Option String
  grouping : Option String
  metrics : Option (List String)
  title : Option String

/-- `_get_x_axis_column`. -/
def getXAxisColumn (grouping : String) (df : DataFrame) : String :=
  if grouping = "daily" && df.hasCol "date" then "date"
  else if grouping = "weekly" && df.hasCol "week" then "week"
  else if grouping = "monthly" && df.hasCol "month" then "month"
  else if grouping = "shift" && df.hasCol "shift" then "shift"
  else if grouping = "line" && df.hasCol "line" then "line"
  else if grouping = "operator" && df.hasCol "operator" then "operator"
  else
    match df.cols.find? fun c => c.dtype ≠ .float with
    | some c => c.name
    | none =>
      match df.cols with
      | c :: _ => c.name
      | [] => "index"

/-- The chart configuration `prepare_chart_data` assembles. -/
structure ChartConfig where
  title : String
  xAxis : String
  yAxis : List String
  chartType : String
  grouping : String

/-- `prepare_chart_data`, as a state transformer: it hands the caller's
frame to `aggregate_data`, so the input frame after the call is whatever
`aggregate_data` left behind. -/
def prepareChartData (df : DataFrame) (instr : ChartInstruction) :
    (DataFrame × ChartConfig) × DataFrame :=
  let grouping := instr.grouping.getD "daily"
  let r := aggregateData df grouping ["sum", "mean"]
  ((r.1,
    ⟨instr.title.getD "Manufacturing Analysis", getXAxisColumn grouping r.1,
      instr.metrics.getD ["production"], instr.chartType.getD "line",
      grouping⟩), r.2)

/-- C8 counterexample input: a dataset with a date column. -/
def dfC8 : DataFrame :=
  ⟨[⟨"date", .datetime, [.date 0, .date 7]⟩,
    ⟨"production", .float, [.num 1, .num 2]⟩]⟩

/-- C8 counterexample: aggregating with grouping "weekly" mutates the
caller's dataset — `_get_grouping_columns` assigns the derived `week`
column onto the input frame in place, so after the call the input is not
the dataset the caller passed. -/
theorem c8_counterexample :
    (aggregateData dfC8 "weekly" ["sum"]).2 ≠ dfC8 := by
  decide

/-- C8 amended: the filter and derive stages copy their input (source
`df.copy()`) and are modelled as pure functions; aggregation leaves the
caller's dataset unchanged for every grouping other than weekly/monthly and
whenever no date column exists, but with grouping "weekly"/"monthly" on a
dataset with a date column it adds the derived `week`/`month` bucket column
to the caller's dataset in place (existing columns keep their values);
chart preparation inherits exactly the aggregation call's effect on its
input. -/
theorem c8_stage_input_mutation :
    (∀ (df : DataFrame) (g : String) (calcs : List String),
      g ≠ "weekly" → g ≠ "monthly" → (aggregateData df g calcs).2 = df) ∧
    (∀ (df : DataFrame) (g : String) (calcs : List String),
      findDateColumn df = none → (aggregateData df g calcs).2 = df) ∧
    (∀ (df : DataFrame) (calcs : List String) (c : String),
      findDateColumn df = some c → df.isEmpty = false →
      (aggregateData df "weekly" calcs).2 =
        df.setCol "week" .float (weekCellsOf df c)) ∧
    (∀ (df : DataFrame) (calcs : List String) (c : String),
      findDateColumn df = some c → df.isEmpty = false →
      (aggregateData df "monthly" calcs).2 =
        df.setCol "month" .otherType (monthCellsOf df c)) ∧
    (∀ (df : DataFrame) (instr : ChartInstruction),
      (prepareChartData df instr).2 =
        (aggregateData df (instr.grouping.getD "daily") ["sum", "mean"]).2) := by
  refine ⟨fun df g calcs h1 h2 => ?_, fun df g calcs h => ?_,
    fun df calcs c hfind hne => ?_, fun df calcs c hfind hne => ?_,
    fun df instr => rfl⟩
  · rw [aggregateData_snd, getGroupingColumns_snd_of_ne g df h1 h2, ite_self]
  · rw [aggregateData_snd, getGroupingColumns_snd_nodate g df h, ite_self]
  · rw [aggregateData_snd, hne]
    simp [getGroupingColumns, hfind]
  · rw [aggregateData_snd, hne]
    simp [getGroupingColumns, hfind]

/-- Witness instantiating the C8 amended theorem: "daily" grouping leaves
the input untouched, while "weekly" grouping on the same dataset leaves the
input extended by the `week` column. -/
theorem c8_stage_input_mutation_witness :
    (aggregateData dfC8 "daily" ["sum"]).2 = dfC8 ∧
    (aggregateData dfC8 "weekly" ["sum"]).2 =
      dfC8.setCol "week" .float (weekCellsOf dfC8 "date") :=
  ⟨c8_stage_input_mutation.1 dfC8 "daily" ["sum"] (by decide) (by decide),
   c8_stage_input_mutation.2.2.1 dfC8 ["sum"] "date" (by decide) (by decide)⟩

/-! ## Filter stage (`UniversalDataProcessor.filter_manufacturing_data`).
The source copies the frame at entry (`filtered_df = df.copy()`) and every
in-place assignment its helpers perform targets that copy, so the stage is a
pure function of the input. -/

/-- Python `str.rstrip("s")`. -/
def rstripS (s : String) : String :=
  ⟨(s.data.reverse.dropWhile fun c => c = 's').reverse⟩

/-- One iteration of the categorical-filter loop: strip the trailing "s"
from the filter key (so "shifts" targets column "shift"; "categories"
faithfully targets the nonexistent "categorie"), and keep the rows whose
value is in the allow-list when that column exists. -/
def applyCategoricalFilter (df : DataFrame) (key : String)
    (vals : List String) : DataFrame :=
  if vals.isEmpty then df
  else
    let colName := rstripS key
    if df.hasCol colName then
      applyMask df ((df.getCells colName).map fun v =>
        vals.any fun s => v = .str s)
    else df

/-- The filter-spec fields `filter_manufacturing_data` reads. -/
structure Filters where
  dateRange : Option DateRange
  shifts : List String
  lineVals : List String
  operators : List String
  categories : List String
  groups : List String

/-- `filter_manufacturing_data`: date-range filter, categorical filters in
the source's key order, derived metrics, then column projection (date/time
columns from the original frame, up to three original object-dtype columns,
and the requested metrics that survived — falling back to every column when
the selection would otherwise be empty). -/
def filterManufacturingData (now : ℤ) (df : DataFrame) (filters : Filters)
    (metrics : List String) : DataFrame :=
  let f1 :=
    match filters.dateRange with
    | some r => applyDateFilter now df r
    | none => df
  let pairs := [("shifts", filters.shifts), ("lines", filters.lineVals),
    ("operators", filters.operators), ("categories", filters.categories),
    ("groups", filters.groups)]
  let f2 := pairs.foldl (fun acc p => applyCategoricalFilter acc p.1 p.2) f1
  let f3 := calculateDerivedMetrics f2
  let dateCols := (df.cols.filter fun c =>
    containsSub "date".data (lowerList c.name.data) ||
      containsSub "time".data (lowerList c.name.data)).map Column.name
  let catCols := ((df.cols.filter fun c =>
    c.dtype = .obj && !dateCols.contains c.name).map Column.name).take 3
  let available := metrics.filter fun m => f3.hasCol m
  let selected := (dateCols ++ catCols ++ available).filter fun n => f3.hasCol n
  let selected :=
    if selected.isEmpty && !f3.cols.isEmpty then f3.cols.map Column.name
    else selected
  ⟨selected.filterMap fun n => findCol f3.cols n⟩

/-! ## Chart.js data preparation (`api.prepare_chartjs_data`) -/

/-- The `chart_config` keys `prepare_chartjs_data` consults.  The source
also accepts a bare string for `y_axis`, immediately wrapping it into a
one-element list, which is the shape modelled here. -/
structure ChartJSConfig where
  chartType : Option String
  xAxis : Option String
  yAxis : List String
  title : Option String

/-- One output row of the Chart.js payload (`name`/`label`/`x` repeat the
stringified label, `value`/`y` repeat the coerced number). -/
structure ChartPoint where
  name : String
  label : String
  value : PValue
  x : String
  y : PValue
deriving DecidableEq

/-- The Chart.js payload. -/
structure ChartJSData where
  typ : String
  data : List ChartPoint
  title : String
deriving DecidableEq

/-- Python `float(str)` on a stripped, lowercased token: decimal numerals,
signed `inf`/`infinity`, and `nan` succeed; anything else raises
(`none`). -/
def pyFloatOfStr (s : String) : Option PValue :=
  let t := lowerList ((s.data.dropWhile fun c => c = ' ' ∨ c = '\t').reverse.dropWhile
    (fun c => c = ' ' ∨ c = '\t')).reverse
  let u := match t with
    | '-' :: r => r
    | '+' :: r => r
    | r => r
  let neg := match t with
    | '-' :: _ => true
    | _ => false
  if u = "inf".data ∨ u = "infinity".data then
    some (if neg then .ninf else .inf)
  else if u = "nan".data then some .nan
  else (parseDecimal ⟨t⟩).map .num

/-- Models `float(value) if pd.notna(value) else 0` wrapped in
`try/except → 0`: missing values and NaN take the `else 0` branch;
numbers pass through `float` unchanged — including infinities, for which
`pd.notna` is true and `float` succeeds; strings go through `float(str)`
with failures caught to 0; a Timestamp makes `float` raise, caught to 0. -/
def pyFloatCell : PValue → PValue
  | .num q => .num q
  | .nan => .num 0
  | .null => .num 0
  | .inf => .inf
  | .ninf => .ninf
  | .str s =>
    match pyFloatOfStr s with
    | some v => v
    | none => .num 0
  | .date _ => .num 0

/-- Python `str()` of a cell for the x-axis label.  The numeric formatting
differs from CPython's float repr; no claim depends on label text. -/
def pvalStr : PValue → String
  | .str s => s
  | .num q => toString q
  | .nan => "nan"
  | .inf => "inf"
  | .ninf => "-inf"
  | .null => "None"
  | .date d => toString d

/-- ASCII uppercasing of one character. -/
def upperChar (c : Char) : Char :=
  if 'a' ≤ c ∧ c ≤ 'z' then Char.ofNat (c.toNat - 32) else c

/-- Python `str.title()` on the single-word chart-type strings used here. -/
def titleCase (s : String) : String :=
  match s.data with
  | [] => ""
  | c :: t => ⟨upperChar c :: lowerList t⟩

/-- Column names in order (`df.columns`). -/
def DataFrame.columnNames (df : DataFrame) : List String :=
  df.cols.map Column.name

/-- First cell of row `i` (`row.iloc[0]`). -/
def rowFirstCell (df : DataFrame) (i : ℕ) : PValue :=
  match df.cols with
  | c :: _ => c.cells.getD i .null
  | [] => .null

/-- `prepare_chartjs_data`: `None` for an empty frame or when no y column
can be resolved; otherwise one point per row, pairing the stringified
x-label with the defensively coerced y value.  The y column is the first
requested metric present, else the first numeric column (`if not y_column`
also treats an empty-string column name as unresolved).  The enclosing
`try/except → None` has no reachable failure in the model. -/
def prepareChartjsData (chartData : DataFrame) (cfg : ChartJSConfig) :
    Option ChartJSData :=
  if chartData.isEmpty then none
  else
    let chartType := cfg.chartType.getD "bar"
    let xAxis := cfg.xAxis.getD (chartData.columnNames.headD "")
    let yCol0 := cfg.yAxis.find? fun c => chartData.hasCol c
    let yColumn? : Option String :=
      match yCol0 with
      | some c => if c = "" then chartData.numericColNames.head? else some c
      | none => chartData.numericColNames.head?
    match yColumn? with
    | none => none
    | some yCol =>
      let pts := (List.range chartData.nrows).map fun i =>
        let label := pvalStr (if chartData.hasCol xAxis then
          (chartData.getCells xAxis).getD i .null else rowFirstCell chartData i)
        let v := pyFloatCell (if chartData.hasCol yCol then
          (chartData.getCells yCol).getD i .null else .num 0)
        ⟨label, label, v, label, v⟩
      some ⟨chartType, pts, cfg.title.getD (titleCase chartType ++ " Chart")⟩

/-- A float-typed value (finite, NaN or infinite) as opposed to a string,
Timestamp or missing value. -/
def isFloatValue : PValue → Bool
  | .num _ => true
  | .nan => true
  | .inf => true
  | .ninf => true
  | _ => false

theorem pyFloatOfStr_isFloatValue (s : String) (v : PValue)
    (h : pyFloatOfStr s = some v) : isFloatValue v = true := by
  simp only [pyFloatOfStr] at h
  split at h
  · cases h
    split <;> rfl
  · split at h
    · cases h
      rfl
    · obtain ⟨q, -, rfl⟩ := Option.map_eq_some'.mp h
      rfl

theorem pyFloatCell_isFloatValue (v : PValue) :
    isFloatValue (pyFloatCell v) = true := by
  cases v <;> try rfl
  case str s =>
    simp only [pyFloatCell]
    cases hm : pyFloatOfStr s with
    | none =>
      simp only [hm]
      rfl
    | some v' =>
      simp only [hm]
      exact pyFloatOfStr_isFloatValue s v' hm

/-- C9 counterexample input: an aggregated frame whose metric cell is
infinite (e.g. a `defect_rate` produced by zero-production division). -/
def dfC9 : DataFrame :=
  ⟨[⟨"shift", .obj, [.str "A"]⟩, ⟨"defect_rate", .float, [.inf]⟩]⟩

/-- The chart configuration of the C9 counterexample. -/
def cfgC9 : ChartJSConfig := ⟨some "bar", some "shift", ["defect_rate"], none⟩

/-- C9 counterexample: an infinite metric cell passes through the y
coercion unchanged — `pd.notna(inf)` is true and `float(inf)` succeeds — so
the emitted series carries an infinite y value, contradicting the claim
that every y is finite. -/
theorem c9_counterexample :
    ((prepareChartjsData dfC9 cfgC9).map fun o => o.data.map ChartPoint.y) =
      some [PValue.inf] := by
  decide

/-- C9 amended: every emitted y value is float-typed (a number, NaN or
infinity — never a string, Timestamp or missing value); missing values,
NaN cells and unparseable non-numeric cells are coerced to 0, but infinite
cells (and strings spelling infinities or NaN) pass through `float`
unchanged, so an emitted y is not guaranteed finite. -/
theorem c9_chart_y_values_float :
    (∀ (chartData : DataFrame) (cfg : ChartJSConfig) (out : ChartJSData),
      prepareChartjsData chartData cfg = some out →
      ∀ p ∈ out.data, isFloatValue p.y = true) ∧
    pyFloatCell .null = .num 0 ∧
    pyFloatCell .nan = .num 0 ∧
    pyFloatCell (.str "n/a") = .num 0 ∧
    pyFloatCell .inf = .inf := by
  refine ⟨?_, rfl, rfl, by decide, rfl⟩
  intro chartData cfg out hout p hp
  simp only [prepareChartjsData] at hout
  split at hout
  · cases hout
  · split at hout
    · cases hout
    · cases hout
      simp only [List.mem_map] at hp
      obtain ⟨i, _, rfl⟩ := hp
      exact pyFloatCell_isFloatValue _

/-- Witness instantiating the quantified part of the C9 amended theorem on
the concrete counterexample frame and its single emitted point. -/
theorem c9_chart_y_values_float_witness :
    isFloatValue (ChartPoint.mk "A" "A" PValue.inf "A" PValue.inf).y = true :=
  c9_chart_y_values_float.1 dfC9 cfgC9
    (ChartJSData.mk "bar" [ChartPoint.mk "A" "A" PValue.inf "A" PValue.inf]
      "Bar Chart")
    (by decide) (ChartPoint.mk "A" "A" PValue.inf "A" PValue.inf) (by decide)

end Manuverse
